import Mathlib

/-!
Shallow embedding of the state-derivation and dual-tier persistence engine of
`app/models/request_models.py` (solar-boat telemetry connector).

Modelling conventions:
* Python `float` fields are embedded as `ℚ`; `datetime` timestamps as `ℤ`
  (epoch seconds).  Python `timedelta.seconds` is the normalized seconds
  component, i.e. `(Δ : ℤ) % 86400` with a nonnegative result, which matches
  Lean's `Int.emod` for the positive modulus `86400`.
* `geopy.distance.geodesic(a, b).km` is an external library function; the spec
  treats it as the abstract leaf `GeoMath.distance`.  It is a parameter
  `g : Pos → Pos → ℚ` (kilometres); `.m` on the same object is `1000 * g`.
* `constants.LAP_ADD_RADIUS_METERS` and `constants.TELEMETRY_REMEMBER_DELAY`
  live in `app/constants.py`, which is not among the provided sources; they are
  parameters `RADIUS : ℚ` (metres) and `DELAY : ℤ` (seconds).
* The Redis hot slot (`RedisDB.get/set` under `CURRENT_STATE_KEY`) is an
  `Option State` threaded explicitly.  Modelled from the spec: the durable
  Postgres log (`pgTelemetry`, whose module is not among the provided sources)
  is an append-only sequence whose latest record is consulted; it is a
  `List State` with `append = cons` and `latest = head?`.
* Raised exceptions (`FileNotFoundError` for a missing hot key, pydantic
  `ValidationError`) become `Except String` results, paired with the hot-slot
  value after the call (writes that precede the raise are kept, as in Python).
-/

/-- A latitude/longitude pair, as the Python code's `(lat, lng)` tuples. -/
abbrev Pos : Type := ℚ × ℚ

/-- `class TelemetrySaveStatus` of `request_models.py` (lines 16–20). -/
inductive TelemetrySaveStatus where
  | TEMP_SAVED
  | PERM_SAVED
  | FAILED
deriving DecidableEq, Repr

/-- `class Telemetry(BaseModel)` (lines 23–33): the raw ingested sample. -/
structure Telemetry where
  created_at : ℤ
  controller_watts : ℤ
  time_to_go : ℤ
  controller_volts : ℚ
  MPPT_volts : ℚ
  MPPT_watts : ℚ
  motor_temp : ℚ
  motor_revols : ℚ
  position_lat : ℚ
  position_lng : ℚ
deriving DecidableEq, Repr

/-- `class PointSet(BaseModel)` (lines 40–42): two required `float` fields. -/
structure PointSet where
  lng : ℚ
  lat : ℚ
deriving DecidableEq, Repr

/-- Runtime meaning of constructing `PointSet(lng=..., lat=...)`: pydantic
validates the required `float` fields and rejects `None`, raising
`ValidationError` (modelled as `none`). -/
def PointSet.validate (lng lat : Option ℚ) : Option PointSet :=
  match lng, lat with
  | some l, some t => some { lng := l, lat := t }
  | _, _ => none

/-- `class State(BaseModel)` (lines 45–63): all sample fields plus the derived
`speed`, `distance_travelled`, `laps` and the optional lap anchor.  In pydantic
v1 a field annotated `float` with default `None` is `Optional[float]`, hence
`Option ℚ` for the two anchor coordinates. -/
structure State where
  created_at : ℤ
  controller_watts : ℤ
  time_to_go : ℤ
  controller_volts : ℚ
  MPPT_volts : ℚ
  MPPT_watts : ℚ
  motor_temp : ℚ
  motor_revols : ℚ
  position_lat : ℚ
  position_lng : ℚ
  speed : ℚ := 0
  distance_travelled : ℚ := 0
  laps : ℤ := 0
  lap_point_lat : Option ℚ := none
  lap_point_lng : Option ℚ := none
deriving DecidableEq, Repr

/-- `res = State(**telemetry.dict())` (line 101): every sample field is copied
through and every derived field keeps its declared default. -/
def State.base (t : Telemetry) : State :=
  { created_at := t.created_at
    controller_watts := t.controller_watts
    time_to_go := t.time_to_go
    controller_volts := t.controller_volts
    MPPT_volts := t.MPPT_volts
    MPPT_watts := t.MPPT_watts
    motor_temp := t.motor_temp
    motor_revols := t.motor_revols
    position_lat := t.position_lat
    position_lng := t.position_lng }

/-- `State.get_current_state` (lines 65–70): read the hot slot, raising
`FileNotFoundError("Key not found")` when the key is absent. -/
def State.get_current_state (hot : Option State) : Except String State :=
  match hot with
  | none => .error "Key not found"
  | some s => .ok s

/-- `State.count_laps` (lines 90–97): only called when both anchor coordinates
are present (guard on lines 87–88); distances to the anchor are taken in
metres (`.m`, i.e. `1000 * g`), and the chained Python comparison
`prev_dist > RADIUS >= cur_dist` is the conjunction of the two comparisons. -/
def State.count_laps (g : Pos → Pos → ℚ) (RADIUS : ℚ) (self prev : State) : State :=
  match self.lap_point_lat, self.lap_point_lng with
  | some plat, some plng =>
    let lap_coord : Pos := (plat, plng)
    let prev_coord : Pos := (prev.position_lat, prev.position_lng)
    let cur_coord : Pos := (self.position_lat, self.position_lng)
    let prev_dist : ℚ := 1000 * g prev_coord lap_coord
    let cur_dist : ℚ := 1000 * g cur_coord lap_coord
    if prev_dist > RADIUS ∧ RADIUS ≥ cur_dist then
      { self with laps := self.laps + 1 }
    else
      self
  | _, _ => self

/-- `State.update_from_previous` (lines 76–88).  `delta` is
`(self.created_at - prev.created_at).seconds / 3600`: Python's
`timedelta.seconds` is the normalized seconds component `Δ % 86400`
(nonnegative), not the total elapsed seconds. -/
def State.update_from_previous (g : Pos → Pos → ℚ) (RADIUS : ℚ) (self prev : State) : State :=
  let cur_coord : Pos := (self.position_lat, self.position_lng)
  let prev_coord : Pos := (prev.position_lat, prev.position_lng)
  let delta : ℚ := (((self.created_at - prev.created_at) % 86400 : ℤ) : ℚ) / 3600
  let distance : ℚ := g cur_coord prev_coord
  let s : State :=
    { self with
      speed := distance / max delta 1
      distance_travelled := prev.distance_travelled + distance
      laps := prev.laps
      lap_point_lat := prev.lap_point_lat
      lap_point_lng := prev.lap_point_lng }
  match s.lap_point_lng, s.lap_point_lat with
  | some _, some _ => s.count_laps g RADIUS prev
  | _, _ => s

/-- `State.from_telemetry` (lines 99–108): build the baseline state from the
sample; if the hot read raises `FileNotFoundError` return it as is, else
derive from the previous state. -/
def State.from_telemetry (g : Pos → Pos → ℚ) (RADIUS : ℚ) (t : Telemetry)
    (hot : Option State) : State :=
  let res := State.base t
  match hot with
  | none => res
  | some prev => res.update_from_previous g RADIUS prev

/-- `State.save` (lines 117–132).  Returns the status together with the hot
slot and the durable log after the call.  When the hot read raises, both
stores are written and `PERM_SAVED` is returned; otherwise the hot slot is
overwritten only for a strictly newer timestamp, and the durable append is
throttled against the durable log's own latest record. -/
def State.save (self : State) (hot : Option State) (durable : List State)
    (DELAY : ℤ) : TelemetrySaveStatus × Option State × List State :=
  match hot with
  | none => (.PERM_SAVED, some self, self :: durable)
  | some prev =>
    let hot' : Option State :=
      if prev.created_at < self.created_at then some self else hot
    match durable.head? with
    | none => (.PERM_SAVED, hot', self :: durable)
    | some d =>
      if self.created_at - d.created_at > DELAY then
        (.PERM_SAVED, hot', self :: durable)
      else
        (.TEMP_SAVED, hot', durable)

/-- `Telemetry.save_current_state` (lines 35–37): derive then save, both reads
of the hot slot seeing the same value in this sequential model. -/
def Telemetry.save_current_state (g : Pos → Pos → ℚ) (RADIUS : ℚ) (DELAY : ℤ)
    (t : Telemetry) (hot : Option State) (durable : List State) :
    TelemetrySaveStatus × Option State × List State :=
  let state := State.from_telemetry g RADIUS t hot
  state.save hot durable DELAY

/-- `State.set_point` (lines 134–141): set the anchor to the current position,
reset laps, write back, then return `PointSet(lng=..., lat=...)` built from
the just-assigned coordinates. -/
def State.set_point (hot : Option State) : Except String PointSet × Option State :=
  match hot with
  | none => (.error "Key not found", hot)
  | some prev =>
    let prev' : State :=
      { prev with
        lap_point_lng := some prev.position_lng
        lap_point_lat := some prev.position_lat
        laps := 0 }
    match PointSet.validate prev'.lap_point_lng prev'.lap_point_lat with
    | some p => (.ok p, some prev')
    | none => (.error "ValidationError", some prev')

/-- `State.reset_point` (lines 143–149): clear the anchor, reset laps, write
back; returns nothing. -/
def State.reset_point (hot : Option State) : Except String Unit × Option State :=
  match hot with
  | none => (.error "Key not found", hot)
  | some prev =>
    let prev' : State :=
      { prev with lap_point_lng := none, lap_point_lat := none, laps := 0 }
    (.ok (), some prev')

/-- `State.reset_distance` (lines 151–155): zero the travelled distance, write
back. -/
def State.reset_distance (hot : Option State) : Except String Unit × Option State :=
  match hot with
  | none => (.error "Key not found", hot)
  | some prev =>
    let prev' : State := { prev with distance_travelled := 0 }
    (.ok (), some prev')

/-- `State.remove_point` (lines 157–164): clear the anchor, reset laps, write
back, then build `PointSet(lng=None, lat=None)` — which pydantic rejects for
the required `float` fields, so the call raises after the write. -/
def State.remove_point (hot : Option State) : Except String PointSet × Option State :=
  match hot with
  | none => (.error "Key not found", hot)
  | some prev =>
    let prev' : State :=
      { prev with lap_point_lng := none, lap_point_lat := none, laps := 0 }
    match PointSet.validate prev'.lap_point_lng prev'.lap_point_lat with
    | some p => (.ok p, some prev')
    | none => (.error "ValidationError", some prev')

/-- `State.clear_distance` (lines 166–170): identical to `reset_distance`. -/
def State.clear_distance (hot : Option State) : Except String Unit × Option State :=
  match hot with
  | none => (.error "Key not found", hot)
  | some prev =>
    let prev' : State := { prev with distance_travelled := 0 }
    (.ok (), some prev')

/-- Whether an `Except` result is the missing-hot-key `FileNotFoundError`. -/
def isNotFoundErr {α : Type} : Except String α → Bool
  | .error s => s == "Key not found"
  | _ => false

/-- The spec's durable-write condition for `save` step 6: the latest durable
record is absent, or the sample is more than `DELAY` seconds newer than it. -/
def durableDue (self : State) (durable : List State) (DELAY : ℤ) : Bool :=
  match durable.head? with
  | none => true
  | some d => decide (self.created_at - d.created_at > DELAY)

/-- The speed formula exactly as claim C2 words it (for the refutation): the
elapsed time in *total* seconds divided by 3600, floored at 1. -/
def claimedSpeed (g : Pos → Pos → ℚ) (self prev : State) : ℚ :=
  g (prev.position_lat, prev.position_lng) (self.position_lat, self.position_lng)
    / max (((self.created_at - prev.created_at : ℤ) : ℚ) / 3600) 1

/-- One derivation step of the ingest pipeline: the baseline state of a fresh
sample updated from the previous live state. -/
def derive (g : Pos → Pos → ℚ) (RADIUS : ℚ) (t : Telemetry) (prev : State) : State :=
  (State.base t).update_from_previous g RADIUS prev

/-- A sequence of states each derived from the previous one. -/
def runChain (g : Pos → Pos → ℚ) (RADIUS : ℚ) (s : State) : List Telemetry → State
  | [] => s
  | t :: ts => runChain g RADIUS (derive g RADIUS t s) ts

/-- An everywhere-one distance function, a concrete `GeoMath` instance. -/
def gOne : Pos → Pos → ℚ := fun _ _ => 1

/-- The everywhere-zero distance function, a concrete `GeoMath` instance. -/
def gZero : Pos → Pos → ℚ := fun _ _ => 0

/-- A distance function that is `0` on coincident points and `1` otherwise. -/
def gFlag : Pos → Pos → ℚ := fun a b => if a = b then 0 else 1

/-- A concrete sample used to instantiate the theorems. -/
def exTelemetry : Telemetry :=
  { created_at := 0, controller_watts := 1, time_to_go := 2, controller_volts := 3,
    MPPT_volts := 4, MPPT_watts := 5, motor_temp := 6, motor_revols := 7,
    position_lat := 8, position_lng := 9 }

/-- The baseline state of the concrete sample. -/
def exState : State := State.base exTelemetry

/-- The concrete state, one hundred seconds later. -/
def exLater : State := { exState with created_at := 100 }

/-- A previous state strictly newer than the concrete sample (negative elapsed
time from `exState`'s point of view). -/
def cexPrev : State := { exState with created_at := 10 }

/-- A previous state away from its own lap anchor, which sits exactly at the
concrete sample's position. -/
def anchoredPrev : State :=
  { exState with
    position_lat := 1
    position_lng := 1
    lap_point_lat := some 8
    lap_point_lng := some 9 }

/-- A hot state with an anchor set and a nonzero lap count. -/
def exAnchored : State :=
  { exState with
    lap_point_lat := some 8
    lap_point_lng := some 9
    laps := 3 }

lemma count_laps_speed (g : Pos → Pos → ℚ) (R : ℚ) (self prev : State) :
    (self.count_laps g R prev).speed = self.speed := by
  unfold State.count_laps
  cases self.lap_point_lat <;> cases self.lap_point_lng <;>
    first
      | rfl
      | (dsimp only; split <;> rfl)

lemma count_laps_distance (g : Pos → Pos → ℚ) (R : ℚ) (self prev : State) :
    (self.count_laps g R prev).distance_travelled = self.distance_travelled := by
  unfold State.count_laps
  cases self.lap_point_lat <;> cases self.lap_point_lng <;>
    first
      | rfl
      | (dsimp only; split <;> rfl)

lemma count_laps_of_some (g : Pos → Pos → ℚ) (R : ℚ) (self prev : State) (plat plng : ℚ)
    (hla : self.lap_point_lat = some plat) (hln : self.lap_point_lng = some plng) :
    self.count_laps g R prev =
      (if 1000 * g (prev.position_lat, prev.position_lng) (plat, plng) > R ∧
            R ≥ 1000 * g (self.position_lat, self.position_lng) (plat, plng)
        then { self with laps := self.laps + 1 }
        else self) := by
  unfold State.count_laps
  rw [hla, hln]

lemma update_speed (g : Pos → Pos → ℚ) (R : ℚ) (self prev : State) :
    (self.update_from_previous g R prev).speed =
      g (self.position_lat, self.position_lng) (prev.position_lat, prev.position_lng) /
        max ((((self.created_at - prev.created_at) % 86400 : ℤ) : ℚ) / 3600) 1 := by
  unfold State.update_from_previous
  dsimp only
  cases prev.lap_point_lng <;> cases prev.lap_point_lat <;>
    first
      | rfl
      | (rw [count_laps_speed])

lemma update_distance (g : Pos → Pos → ℚ) (R : ℚ) (self prev : State) :
    (self.update_from_previous g R prev).distance_travelled =
      prev.distance_travelled +
        g (self.position_lat, self.position_lng) (prev.position_lat, prev.position_lng) := by
  unfold State.update_from_previous
  dsimp only
  cases prev.lap_point_lng <;> cases prev.lap_point_lat <;>
    first
      | rfl
      | (rw [count_laps_distance])

lemma update_laps_of_some (g : Pos → Pos → ℚ) (R : ℚ) (self prev : State) (plat plng : ℚ)
    (hla : prev.lap_point_lat = some plat) (hln : prev.lap_point_lng = some plng) :
    (self.update_from_previous g R prev).laps =
      (if 1000 * g (prev.position_lat, prev.position_lng) (plat, plng) > R ∧
            R ≥ 1000 * g (self.position_lat, self.position_lng) (plat, plng)
        then prev.laps + 1
        else prev.laps) := by
  unfold State.update_from_previous
  dsimp only
  rw [hla, hln]
  dsimp only
  rw [count_laps_of_some g R _ prev plat plng rfl rfl]
  split <;> rfl

lemma update_laps_of_absent (g : Pos → Pos → ℚ) (R : ℚ) (self prev : State)
    (h : prev.lap_point_lat = none ∨ prev.lap_point_lng = none) :
    (self.update_from_previous g R prev).laps = prev.laps := by
  unfold State.update_from_previous
  dsimp only
  rcases h with h | h
  · rw [h]
    cases prev.lap_point_lng <;> rfl
  · rw [h]

lemma update_laps_or (g : Pos → Pos → ℚ) (R : ℚ) (self prev : State) :
    (self.update_from_previous g R prev).laps = prev.laps ∨
      (self.update_from_previous g R prev).laps = prev.laps + 1 := by
  cases hla : prev.lap_point_lat with
  | none => exact Or.inl (update_laps_of_absent g R self prev (Or.inl hla))
  | some plat =>
    cases hln : prev.lap_point_lng with
    | none => exact Or.inl (update_laps_of_absent g R self prev (Or.inr hln))
    | some plng =>
      rw [update_laps_of_some g R self prev plat plng hla hln]
      split
      · exact Or.inr rfl
      · exact Or.inl rfl

/-- Claim C1: for every sample ingested while the hot store is empty, the
derived State is the baseline: speed, distance travelled and laps are zero,
the lap anchor is absent, every sample field is copied through unchanged, the
state is written to both the hot store and the durable log, and save returns
`PERM_SAVED`. -/
theorem claim_C1 (g : Pos → Pos → ℚ) (R : ℚ) (DELAY : ℤ) (t : Telemetry)
    (durable : List State) :
    State.from_telemetry g R t none = State.base t ∧
    (State.from_telemetry g R t none).speed = 0 ∧
    (State.from_telemetry g R t none).distance_travelled = 0 ∧
    (State.from_telemetry g R t none).laps = 0 ∧
    (State.from_telemetry g R t none).lap_point_lat = none ∧
    (State.from_telemetry g R t none).lap_point_lng = none ∧
    (State.from_telemetry g R t none).created_at = t.created_at ∧
    (State.from_telemetry g R t none).controller_watts = t.controller_watts ∧
    (State.from_telemetry g R t none).time_to_go = t.time_to_go ∧
    (State.from_telemetry g R t none).controller_volts = t.controller_volts ∧
    (State.from_telemetry g R t none).MPPT_volts = t.MPPT_volts ∧
    (State.from_telemetry g R t none).MPPT_watts = t.MPPT_watts ∧
    (State.from_telemetry g R t none).motor_temp = t.motor_temp ∧
    (State.from_telemetry g R t none).motor_revols = t.motor_revols ∧
    (State.from_telemetry g R t none).position_lat = t.position_lat ∧
    (State.from_telemetry g R t none).position_lng = t.position_lng ∧
    Telemetry.save_current_state g R DELAY t none durable =
      (.PERM_SAVED, some (State.from_telemetry g R t none),
        State.from_telemetry g R t none :: durable) :=
  ⟨rfl, rfl, rfl, rfl, rfl, rfl, rfl, rfl, rfl, rfl, rfl, rfl, rfl, rfl, rfl, rfl, rfl⟩

/-- Claim C2, amended: the derived speed is the distance divided by
`max ((Δ mod 86400) / 3600) 1` — Python's `timedelta.seconds` component, not
the total elapsed seconds — and the denominator is exactly 1 for any elapsed
time between zero and one hour inclusive.  (For negative elapsed time the
residue `Δ mod 86400` is close to a full day, so the denominator is about 24,
not 1: see the counterexample.) -/
theorem claim_C2 (g : Pos → Pos → ℚ) (R : ℚ) (self prev : State) :
    (self.update_from_previous g R prev).speed =
      g (self.position_lat, self.position_lng) (prev.position_lat, prev.position_lng) /
        max ((((self.created_at - prev.created_at) % 86400 : ℤ) : ℚ) / 3600) 1 ∧
    (0 ≤ self.created_at - prev.created_at → self.created_at - prev.created_at ≤ 3600 →
      (self.update_from_previous g R prev).speed =
        g (self.position_lat, self.position_lng) (prev.position_lat, prev.position_lng)) := by
  refine ⟨update_speed g R self prev, fun h0 h1 => ?_⟩
  rw [update_speed]
  have hmod : (self.created_at - prev.created_at) % 86400 = self.created_at - prev.created_at :=
    Int.emod_eq_of_lt h0 (by omega)
  rw [hmod]
  have h2 : ((self.created_at - prev.created_at : ℤ) : ℚ) ≤ 3600 := by exact_mod_cast h1
  have h3 : (((self.created_at - prev.created_at : ℤ) : ℚ) / 3600) ≤ 1 := by
    rw [div_le_one (by norm_num : (0 : ℚ) < 3600)]
    exact h2
  rw [max_eq_right h3, div_one]

/-- Claim C2 witness: one hundred seconds of elapsed time gives denominator 1,
so the derived speed equals the raw distance. -/
theorem claim_C2_witness :
    (exLater.update_from_previous gOne 50 exState).speed =
      gOne (exLater.position_lat, exLater.position_lng)
        (exState.position_lat, exState.position_lng) :=
  (claim_C2 gOne 50 exLater exState).2 (by decide) (by decide)

/-- Claim C2 counterexample: with the previous state 10 seconds *newer* than
the sample, the code's `timedelta.seconds` is 86390, so the computed speed is
`1 / (86390/3600)`, not the `1 / max(-10/3600, 1) = 1` that the claim's
total-seconds formula (with its floor at 1 for negative elapsed time)
prescribes. -/
theorem claim_C2_counterexample :
    (exState.update_from_previous gOne 50 cexPrev).speed ≠
      claimedSpeed gOne exState cexPrev := by
  rw [update_speed]
  unfold claimedSpeed gOne cexPrev exState exTelemetry State.base
  dsimp only
  have hm : ((0 : ℤ) - 10) % 86400 = 86390 := by decide
  rw [hm]
  push_cast
  norm_num [max_def]

/-- Claim C3: when the previous state's lap anchor is present, the derived
laps equal the previous laps plus one exactly when the previous position is
strictly outside the radius and the current position is inside or on it
(distances in metres, i.e. `1000 * g`); otherwise, and whenever the anchor is
absent, the laps are carried forward unchanged. -/
theorem claim_C3 (g : Pos → Pos → ℚ) (R : ℚ) (self prev : State) :
    (∀ plat plng, prev.lap_point_lat = some plat → prev.lap_point_lng = some plng →
      (((self.update_from_previous g R prev).laps = prev.laps + 1) ↔
        (1000 * g (prev.position_lat, prev.position_lng) (plat, plng) > R ∧
          R ≥ 1000 * g (self.position_lat, self.position_lng) (plat, plng))) ∧
      (¬(1000 * g (prev.position_lat, prev.position_lng) (plat, plng) > R ∧
          R ≥ 1000 * g (self.position_lat, self.position_lng) (plat, plng)) →
        (self.update_from_previous g R prev).laps = prev.laps)) ∧
    ((prev.lap_point_lat = none ∨ prev.lap_point_lng = none) →
      (self.update_from_previous g R prev).laps = prev.laps) := by
  constructor
  · intro plat plng hla hln
    rw [update_laps_of_some g R self prev plat plng hla hln]
    refine ⟨⟨fun h => ?_, fun h => if_pos h⟩, fun h => if_neg h⟩
    by_contra hc
    rw [if_neg hc] at h
    omega
  · exact update_laps_of_absent g R self prev

/-- Claim C3 witness: a previous position outside the 50 m radius followed by
a sample on the anchor increments the lap count by exactly one. -/
theorem claim_C3_witness :
    (exState.update_from_previous gFlag 50 anchoredPrev).laps = anchoredPrev.laps + 1 :=
  (((claim_C3 gFlag 50 exState anchoredPrev).1 8 9 rfl rfl).1).mpr
    (by norm_num [gFlag, anchoredPrev, exState, State.base, exTelemetry, Prod.ext_iff])

/-- Claim C4: for any present previous state, the derived travelled distance
is the previous travelled distance plus the distance between the two
positions (for symmetric `g`, as the spec requires of `GeoMath`), regardless
of anchor presence or timestamp ordering; at a fixed position (with
`g` zero on coincident points) the travelled distance stays constant and the
speed is zero. -/
theorem claim_C4 (g : Pos → Pos → ℚ) (R : ℚ) (self prev : State)
    (hsymm : ∀ a b : Pos, g a b = g b a) :
    (self.update_from_previous g R prev).distance_travelled =
      prev.distance_travelled +
        g (prev.position_lat, prev.position_lng) (self.position_lat, self.position_lng) ∧
    (((self.position_lat, self.position_lng) : Pos) = (prev.position_lat, prev.position_lng) →
      (∀ a : Pos, g a a = 0) →
      (self.update_from_previous g R prev).distance_travelled = prev.distance_travelled ∧
        (self.update_from_previous g R prev).speed = 0) := by
  have hd := update_distance g R self prev
  constructor
  · rw [hd, hsymm]
  · intro hpos hzero
    constructor
    · rw [hd, hpos, hzero, add_zero]
    · rw [update_speed, hpos, hzero, zero_div]

/-- Claim C4 witness: the travelled-distance recurrence evaluated at the
concrete state with the zero distance function. -/
theorem claim_C4_witness :
    (exState.update_from_previous gZero 50 exState).distance_travelled =
      exState.distance_travelled +
        gZero (exState.position_lat, exState.position_lng)
          (exState.position_lat, exState.position_lng) :=
  (claim_C4 gZero 50 exState exState (fun _ _ => rfl)).1

/-- Claim C5: with hot state present, the new state is appended to the durable
log and `PERM_SAVED` returned exactly when the durable log's latest record is
absent or more than `DELAY` seconds older than the sample; otherwise
`TEMP_SAVED` is returned and the durable log is untouched. -/
theorem claim_C5 (self h : State) (durable : List State) (DELAY : ℤ) :
    (durableDue self durable DELAY = true →
      (self.save (some h) durable DELAY).1 = .PERM_SAVED ∧
      (self.save (some h) durable DELAY).2.2 = self :: durable) ∧
    (durableDue self durable DELAY = false →
      (self.save (some h) durable DELAY).1 = .TEMP_SAVED ∧
      (self.save (some h) durable DELAY).2.2 = durable) := by
  unfold State.save durableDue
  cases hd : durable.head? with
  | none => exact ⟨fun _ => ⟨rfl, rfl⟩, fun hf => Bool.noConfusion hf⟩
  | some d =>
    dsimp only
    refine ⟨fun ht => ?_, fun hf => ?_⟩
    · rw [decide_eq_true_eq] at ht
      rw [if_pos ht]
      exact ⟨rfl, rfl⟩
    · rw [decide_eq_false_iff_not] at hf
      rw [if_neg hf]
      exact ⟨rfl, rfl⟩

/-- Claim C5 witness: an empty durable log makes the write due, so the save is
permanent and the state is appended. -/
theorem claim_C5_witness :
    (exState.save (some exState) [] 60).1 = .PERM_SAVED ∧
      (exState.save (some exState) [] 60).2.2 = exState :: [] :=
  (claim_C5 exState exState [] 60).1 rfl

/-- Claim C6: with hot state present, the hot slot after save holds the new
state exactly when the previous hot timestamp is strictly older than the
sample's, and the previous hot state otherwise — for every durable log, so the
decision is independent of the durable-write outcome. -/
theorem claim_C6 (self h : State) (durable : List State) (DELAY : ℤ) :
    (self.save (some h) durable DELAY).2.1 =
      (if h.created_at < self.created_at then some self else some h) := by
  unfold State.save
  cases hd : durable.head? with
  | none => rfl
  | some d =>
    dsimp only
    split <;> rfl

/-- Claim C7: `get_current_state` and each of the five operator operations
report the missing-hot-key error (`FileNotFoundError("Key not found")`)
exactly when the hot slot is empty, and never when it holds a State. -/
theorem claim_C7 (hot : Option State) :
    isNotFoundErr (State.get_current_state hot) = hot.isNone ∧
    isNotFoundErr (State.set_point hot).1 = hot.isNone ∧
    isNotFoundErr (State.reset_point hot).1 = hot.isNone ∧
    isNotFoundErr (State.remove_point hot).1 = hot.isNone ∧
    isNotFoundErr (State.reset_distance hot).1 = hot.isNone ∧
    isNotFoundErr (State.clear_distance hot).1 = hot.isNone := by
  cases hot <;> exact ⟨rfl, rfl, rfl, rfl, rfl, rfl⟩

/-- Claim C8, code bug: on a present hot state, `remove_point` does clear the
anchor, reset the laps and write the cleared state back, but then it builds
`PointSet(lng=None, lat=None)` whose required `float` fields reject `None`, so
the call raises a pydantic `ValidationError` instead of returning the
now-absent anchor value. -/
theorem claim_C8_bug :
    State.remove_point (some exAnchored) =
      (.error "ValidationError",
        some { exAnchored with
          lap_point_lat := none
          lap_point_lng := none
          laps := 0 }) := rfl

/-- Claim C9: along any chain of states each derived from the previous one,
the lap count stays non-negative and non-decreasing and the travelled distance
is non-decreasing, for any non-negative distance function (as the spec
requires of `GeoMath`). -/
theorem claim_C9 (g : Pos → Pos → ℚ) (R : ℚ) (hnn : ∀ a b : Pos, 0 ≤ g a b)
    (s : State) (h0 : 0 ≤ s.laps) (ts : List Telemetry) :
    0 ≤ (runChain g R s ts).laps ∧ s.laps ≤ (runChain g R s ts).laps ∧
      s.distance_travelled ≤ (runChain g R s ts).distance_travelled := by
  induction ts generalizing s with
  | nil => exact ⟨h0, le_refl _, le_refl _⟩
  | cons t ts ih =>
    simp only [runChain]
    have hlaps : s.laps ≤ (derive g R t s).laps := by
      have h := update_laps_or g R (State.base t) s
      unfold derive
      omega
    have hdist : s.distance_travelled ≤ (derive g R t s).distance_travelled := by
      unfold derive
      rw [update_distance]
      exact le_add_of_nonneg_right (hnn _ _)
    obtain ⟨a, b, c⟩ := ih (derive g R t s) (le_trans h0 hlaps)
    exact ⟨a, le_trans hlaps b, le_trans hdist c⟩

/-- Claim C9 witness: a one-step chain from the concrete baseline state with
the zero distance function. -/
theorem claim_C9_witness :
    0 ≤ (runChain gZero 50 exState [exTelemetry]).laps ∧
      exState.laps ≤ (runChain gZero 50 exState [exTelemetry]).laps ∧
      exState.distance_travelled ≤
        (runChain gZero 50 exState [exTelemetry]).distance_travelled :=
  claim_C9 gZero 50 (fun _ _ => le_refl 0) exState (by decide) [exTelemetry]

/-- Claim C10: when the hot state is at least as new as the sample and the
durable log's latest record is within `DELAY` seconds of the sample, save
writes to neither store and still returns `TEMP_SAVED`. -/
theorem claim_C10 (self h d : State) (durable : List State) (DELAY : ℤ)
    (h1 : self.created_at ≤ h.created_at) (h2 : durable.head? = some d)
    (h3 : self.created_at - d.created_at ≤ DELAY) :
    self.save (some h) durable DELAY = (.TEMP_SAVED, some h, durable) := by
  unfold State.save
  rw [h2]
  dsimp only
  rw [if_neg (not_lt.mpr h1), if_neg (not_lt.mpr h3)]

/-- Claim C10 witness: an equal-timestamp sample against a fresh durable
record changes nothing and reports a temporary save. -/
theorem claim_C10_witness :
    exState.save (some exState) [exState] 60 = (.TEMP_SAVED, some exState, [exState]) :=
  claim_C10 exState exState exState [exState] 60 (le_refl _) rfl (by decide)
